import Mathlib

/-!
Shallow embedding of the deterministic core of the dnd-ai-app repository:
the D&D 5e point-buy utilities (`lib/utils/point-buy`), the character
stat-derivation utilities (`lib/utils/character-utils`), and the dice engine
(`lib/dice/dice-roller`).

Conventions of the embedding:
- JavaScript numbers that are used as integers are modelled as `Int`
  (die counts as `Nat` where they index a loop).
- `Math.floor` of a real quotient is modelled by integer division: Lean's
  `Int` division `/` is Euclidean division, which agrees with
  floor division for the positive divisors (2, 4) used here; the claim
  theorems prove the equality with `Int.floor` over `ℚ` explicitly.
- `Math.ceil(x / 4)` is modelled as `-((-x) / 4)`, again proved equal to
  `Int.ceil` over `ℚ` in the claim theorems.
- `Math.random()`-based die draws are modelled by a stream `rand : Nat → Nat`
  giving the value of `Math.floor(Math.random() * sides)` at the k-th call of
  the random primitive inside one `roll` invocation; a die face is
  `rand k + 1`.  `DiceRoller.roll` additionally returns how many draws it
  consumed.
- The `generateId` helper (wall-clock plus randomness) is externalized as an
  explicit `id` argument.
- Database-backed lookups (`getClassHitDie`) are externalized: `calculateMaxHP`
  takes the resolved hit die as a parameter, exactly the value the source
  computes with after its `await`.
-/

namespace DndAi

/-- The six named ability scores (`types/character` / zod `abilityScoresSchema`). -/
structure AbilityScores where
  strength : Int
  dexterity : Int
  constitution : Int
  intelligence : Int
  wisdom : Int
  charisma : Int
deriving DecidableEq, Repr

/-- `Object.values(stats)` in TypeScript property-definition order. -/
def AbilityScores.values (s : AbilityScores) : List Int :=
  [s.strength, s.dexterity, s.constitution, s.intelligence, s.wisdom, s.charisma]

/-- `Math.max(...xs)` over a spread list (the lists used here are never empty). -/
def listMax : List Int → Int
  | [] => 0
  | x :: xs => xs.foldl max x

/-- `Math.min(...xs)` over a spread list (the lists used here are never empty). -/
def listMin : List Int → Int
  | [] => 0
  | x :: xs => xs.foldl min x

namespace PointBuy

/-- `POINT_BUY_RULES.MIN_SCORE`. -/
def MIN_SCORE : Int := 8

/-- `POINT_BUY_RULES.MAX_SCORE`. -/
def MAX_SCORE : Int := 15

/-- `POINT_BUY_RULES.TOTAL_POINTS`. -/
def TOTAL_POINTS : Int := 27

/-- `calculateScoreCost` from the point-buy utility module. -/
def calculateScoreCost (score : Int) : Int :=
  if score < MIN_SCORE then 0
  else if score ≤ 13 then score - MIN_SCORE
  else if score = 14 then 7
  else if score = 15 then 9
  else max 0 (score - MIN_SCORE)

/-- `calculateTotalPointsUsed` from the point-buy utility module. -/
def calculateTotalPointsUsed (scores : AbilityScores) : Int :=
  scores.values.foldl (fun total score => total + calculateScoreCost score) 0

/-- The structured result type returned by the point-buy `validatePointBuyStats`. -/
structure PointBuyResult where
  valid : Bool
  pointsUsed : Int
  pointsRemaining : Int
  maxScore : Int
  minScore : Int
  error : Option String
deriving DecidableEq, Repr

/-- `validatePointBuyStats` from the point-buy utility module. -/
def validatePointBuyStats (stats : AbilityScores) : PointBuyResult :=
  let scores := stats.values
  let pointsUsed := calculateTotalPointsUsed stats
  let maxScore := listMax scores
  let minScore := listMin scores
  if minScore < MIN_SCORE then
    { valid := false
      pointsUsed := pointsUsed
      pointsRemaining := TOTAL_POINTS - pointsUsed
      maxScore := maxScore
      minScore := minScore
      error := some ("All ability scores must be at least " ++ toString MIN_SCORE) }
  else if maxScore > MAX_SCORE then
    { valid := false
      pointsUsed := pointsUsed
      pointsRemaining := TOTAL_POINTS - pointsUsed
      maxScore := maxScore
      minScore := minScore
      error := some ("All ability scores must be at most " ++ toString MAX_SCORE) }
  else if pointsUsed > TOTAL_POINTS then
    { valid := false
      pointsUsed := pointsUsed
      pointsRemaining := TOTAL_POINTS - pointsUsed
      maxScore := maxScore
      minScore := minScore
      error := some ("Point-buy total exceeds " ++ toString TOTAL_POINTS
        ++ " points (used " ++ toString pointsUsed ++ ")") }
  else
    { valid := true
      pointsUsed := pointsUsed
      pointsRemaining := TOTAL_POINTS - pointsUsed
      maxScore := maxScore
      minScore := minScore
      error := none }

/-- `isValidPointBuyDistribution` from the point-buy utility module. -/
def isValidPointBuyDistribution (stats : AbilityScores) : Bool :=
  let validation := validatePointBuyStats stats
  validation.valid && decide (validation.pointsUsed = TOTAL_POINTS)

/-- `getRemainingPoints` from the point-buy utility module. -/
def getRemainingPoints (stats : AbilityScores) : Int :=
  let pointsUsed := calculateTotalPointsUsed stats
  max 0 (TOTAL_POINTS - pointsUsed)

/-- `canIncreaseScore` from the point-buy utility module. -/
def canIncreaseScore (currentScore : Int) (allStats : AbilityScores) : Bool :=
  if currentScore ≥ MAX_SCORE then false
  else
    let currentCost := calculateScoreCost currentScore
    let newCost := calculateScoreCost (currentScore + 1)
    let additionalCost := newCost - currentCost
    let remainingPoints := getRemainingPoints allStats
    decide (remainingPoints ≥ additionalCost)

/-- `getIncreaseCost` from the point-buy utility module. -/
def getIncreaseCost (currentScore : Int) : Int :=
  if currentScore ≥ MAX_SCORE then 0
  else calculateScoreCost (currentScore + 1) - calculateScoreCost currentScore

end PointBuy

namespace CharacterUtils

/-- `getAbilityModifier` from character-utils: `Math.floor((score - 10) / 2)`.
`Int` division is Euclidean division, which agrees with floor division for the
positive divisor 2 (proved against `Int.floor` over `ℚ` in the claim theorem). -/
def getAbilityModifier (score : Int) : Int :=
  (score - 10) / 2

/-- `getProficiencyBonus` from character-utils: `Math.ceil(level / 4) + 1`,
with `Math.ceil(x / 4)` rendered as `-((-x) / 4)` (proved against `Int.ceil`
over `ℚ` in the claim theorem). -/
def getProficiencyBonus (level : Int) : Int :=
  -((-level) / 4) + 1

/-- `calculateMaxHP` from character-utils.  The source resolves the hit die by
an awaited database lookup (`getClassHitDie`); the embedding takes that
resolved `hitDie` as a parameter and models the remaining pure computation. -/
def calculateMaxHP (hitDie : Int) (level : Int) (constitutionModifier : Int) : Int :=
  let firstLevelHP := hitDie + constitutionModifier
  let additionalLevelsHP := (level - 1) * (hitDie / 2 + 1 + constitutionModifier)
  max 1 (firstLevelHP + additionalLevelsHP)

/-- `calculateBaseAC` from character-utils. -/
def calculateBaseAC (dexterityModifier : Int) : Int :=
  10 + dexterityModifier

/-- The result shape of the character-utils `validatePointBuyStats`. -/
structure ValidationResult where
  valid : Bool
  error : Option String
deriving DecidableEq, Repr

/-- `validatePointBuyStats` from character-utils (the copy imported by the
character-creation API route). -/
def validatePointBuyStats (stats : AbilityScores) : ValidationResult :=
  let values := stats.values
  if values.any (fun val => decide (val < 8) || decide (val > 15)) then
    { valid := false
      error := some ("All ability scores must be between 8 and 15") }
  else
    let cost := values.foldl
      (fun total score =>
        if score ≥ 14 then total + (score - 8) + 1
        else total + max 0 (score - 8)) 0
    if cost > 27 then
      { valid := false, error := some ("Point buy total exceeds 27 points") }
    else
      { valid := true, error := none }

/-- The point-buy cost reduction used inside the character-utils
`validatePointBuyStats`, exposed for the refinement comparison. -/
def cuPointBuyCost (stats : AbilityScores) : Int :=
  stats.values.foldl
    (fun total score =>
      if score ≥ 14 then total + (score - 8) + 1
      else total + max 0 (score - 8)) 0

end CharacterUtils

namespace Dice

/-- The `DiceType` string-literal union. -/
inductive DiceType where
  | d4
  | d6
  | d8
  | d10
  | d12
  | d20
  | d100
deriving DecidableEq, Repr

/-- The string a `DiceType` denotes in the source. -/
def DiceType.str : DiceType → String
  | .d4 => "d4"
  | .d6 => "d6"
  | .d8 => "d8"
  | .d10 => "d10"
  | .d12 => "d12"
  | .d20 => "d20"
  | .d100 => "d100"

/-- `RollOptions` with the defaults destructured at the top of `roll`. -/
structure RollOptions where
  count : Nat := 1
  modifier : Int := 0
  advantage : Bool := false
  disadvantage : Bool := false
  purpose : String := "General roll"
  skill : Option String := none
deriving DecidableEq, Repr

/-- The `DiceRoll` record returned by the dice engine. -/
structure DiceRoll where
  id : String
  type : DiceType
  count : Nat
  modifier : Int
  result : List Int
  total : Int
  purpose : String
  skill : Option String
  advantage : Bool
  disadvantage : Bool
deriving DecidableEq, Repr

namespace DiceRoller

/-- `getDiceSides`. -/
def getDiceSides : DiceType → Nat
  | .d4 => 4
  | .d6 => 6
  | .d8 => 8
  | .d10 => 10
  | .d12 => 12
  | .d20 => 20
  | .d100 => 100

/-- `DiceRoller.roll`.  `rand k` models the value of
`Math.floor(Math.random() * sides)` at the k-th call of the random primitive
inside this invocation, so each die face is `rand k + 1`; `id` externalizes
`generateId()`.  The second component of the result is the number of random
draws the invocation consumed. -/
def roll (diceType : DiceType) (opts : RollOptions) (rand : Nat → Nat)
    (id : String) : DiceRoll × Nat :=
  let results : List Int × Nat :=
    if diceType = DiceType.d20 ∧ (opts.advantage = true ∨ opts.disadvantage = true) then
      let roll1 : Int := (rand 0 : Int) + 1
      let roll2 : Int := (rand 1 : Int) + 1
      if opts.advantage then ([max roll1 roll2], 2)
      else ([min roll1 roll2], 2)
    else
      ((List.range opts.count).map (fun i => ((rand i : Int) + 1)), opts.count)
  let total := results.1.foldl (fun sum r => sum + r) 0 + opts.modifier
  ({ id := id
     type := diceType
     count := opts.count
     modifier := opts.modifier
     result := results.1
     total := total
     purpose := opts.purpose
     skill := opts.skill
     advantage := opts.advantage
     disadvantage := opts.disadvantage }, results.2)

/-- `DiceRoller.checkSuccess`. -/
def checkSuccess (roll : DiceRoll) (dc : Int) : Bool :=
  decide (roll.total ≥ dc)

/-- `DiceRoller.formatRoll`.  An out-of-range `roll.result[0]` access on an
empty list renders as the string "undefined", as JavaScript template
interpolation would. -/
def formatRoll (roll : DiceRoll) : String :=
  let diceStr := (if roll.count > 1 then toString roll.count else "") ++ roll.type.str
  let modifierStr :=
    if roll.modifier ≠ 0 then
      if roll.modifier > 0 then "+" ++ toString roll.modifier
      else toString roll.modifier
    else ""
  let advantageStr :=
    if roll.advantage then " (Advantage)"
    else if roll.disadvantage then " (Disadvantage)"
    else ""
  let resultStr :=
    if roll.result.length > 1 then
      "[" ++ String.intercalate ", " (roll.result.map toString) ++ "]"
    else
      match roll.result with
      | [] => "undefined"
      | x :: _ => toString x
  diceStr ++ modifierStr ++ ": " ++ resultStr
    ++ (if modifierStr ≠ "" then " = " ++ toString roll.total else "") ++ advantageStr

end DiceRoller

end Dice

/-! Concrete inputs used by counterexamples and witnesses. -/

/-- All six abilities at 8 (the all-minimum build). -/
def allEights : AbilityScores := ⟨8, 8, 8, 8, 8, 8⟩

/-- All six abilities at 15 (cost 54, far over budget). -/
def allFifteens : AbilityScores := ⟨15, 15, 15, 15, 15, 15⟩

/-- Scores 15/15/15/9/8/8: true point-buy cost 28 (over budget), but cost 25
under the character-utils formula (under budget). -/
def c3stats : AbilityScores := ⟨15, 15, 15, 9, 8, 8⟩

/-- Options with only the advantage flag set. -/
def advOpts : Dice.RollOptions := { advantage := true }

/-- Options with both the advantage and the disadvantage flag set. -/
def bothFlagOpts : Dice.RollOptions := { advantage := true, disadvantage := true }

/-- A random stream whose first draw is 4 and whose later draws are 17
(faces 5 and 18 on a d20). -/
def c4rand : Nat → Nat := fun k => if k = 0 then 4 else 17

/-- A random stream whose first draw is 0 and whose later draws are 19
(faces 1 and 20 on a d20). -/
def c5rand : Nat → Nat := fun k => if k = 0 then 0 else 19

/-- A single-die d20 roll: count 1, modifier 3, kept face 14, total 17. -/
def fmtRoll1 : Dice.DiceRoll :=
  { id := "r1", type := Dice.DiceType.d20, count := 1, modifier := 3
    result := [14], total := 17, purpose := "General roll", skill := none
    advantage := false, disadvantage := false }

/-- A two-die d6 roll: count 2, modifier 2, faces [4, 6], total 12. -/
def fmtRoll2 : Dice.DiceRoll :=
  { id := "r2", type := Dice.DiceType.d6, count := 2, modifier := 2
    result := [4, 6], total := 12, purpose := "General roll", skill := none
    advantage := false, disadvantage := false }

/-- The single-die d20 roll with the advantage flag set. -/
def fmtRollAdv : Dice.DiceRoll :=
  { fmtRoll1 with id := "r3", advantage := true }

/-- The single-die d20 roll with the disadvantage flag set. -/
def fmtRollDis : Dice.DiceRoll :=
  { fmtRoll1 with id := "r4", disadvantage := true }

end DndAi

namespace DndAi

/-! Helper lemmas bridging integer division to floor/ceil over `ℚ`. -/

/-- `Math.floor(n / 2)` for an integer `n` is Euclidean division by 2. -/
lemma floor_div_two_eq (n : Int) : ⌊(n : ℚ) / 2⌋ = n / 2 := by
  rw [show ((n : ℚ) / 2) = ((n : Int) : ℚ) / ((2 : ℕ) : ℚ) by norm_num]
  rw [Rat.floor_intCast_div_natCast]
  norm_num

/-- `Math.ceil(n / 4)` for an integer `n` is the negated Euclidean division of
`-n` by 4. -/
lemma ceil_div_four_eq (n : Int) : ⌈(n : ℚ) / 4⌉ = -((-n) / 4) := by
  rw [show ((n : ℚ) / 4) = -(((-n : Int) : ℚ) / ((4 : ℕ) : ℚ)) by push_cast; ring]
  rw [Int.ceil_neg, Rat.floor_intCast_div_natCast]
  norm_num

/-- Claim C1: for every integer score `s` with `8 ≤ s ≤ 15`,
`calculateScoreCost s` equals the fixed point-buy cost table
(8↦0, 9↦1, 10↦2, 11↦3, 12↦4, 13↦5, 14↦7, 15↦9), and for every `s < 8` it
returns 0. -/
theorem calculateScoreCost_matches_table (s : Int) :
    (s < 8 → PointBuy.calculateScoreCost s = 0) ∧
    PointBuy.calculateScoreCost 8 = 0 ∧
    PointBuy.calculateScoreCost 9 = 1 ∧
    PointBuy.calculateScoreCost 10 = 2 ∧
    PointBuy.calculateScoreCost 11 = 3 ∧
    PointBuy.calculateScoreCost 12 = 4 ∧
    PointBuy.calculateScoreCost 13 = 5 ∧
    PointBuy.calculateScoreCost 14 = 7 ∧
    PointBuy.calculateScoreCost 15 = 9 := by
  refine ⟨fun h => ?_, by decide, by decide, by decide, by decide, by decide,
    by decide, by decide, by decide⟩
  simp [PointBuy.calculateScoreCost, PointBuy.MIN_SCORE, h]

/-- Witness for C1: the low-score branch evaluated at score 5. -/
theorem calculateScoreCost_matches_table_w :
    (5 : Int) < 8 ∧ PointBuy.calculateScoreCost 5 = 0 :=
  ⟨by decide, (calculateScoreCost_matches_table 5).1 (by decide)⟩

/-- Claim C6: for every hit die, level ≥ 1, and Constitution modifier, the
computed maximum hit points equal
`max 1 ((hitDie + conMod) + (level - 1) * (⌊hitDie / 2⌋ + 1 + conMod))`,
i.e. level-1 hit points plus the average-progression amount per further level,
floored at a minimum of 1. -/
theorem calculateMaxHP_spec (hitDie level conMod : Int) (_h : 1 ≤ level) :
    CharacterUtils.calculateMaxHP hitDie level conMod
      = max 1 ((hitDie + conMod) + (level - 1) * (⌊(hitDie : ℚ) / 2⌋ + 1 + conMod)) ∧
    1 ≤ CharacterUtils.calculateMaxHP hitDie level conMod := by
  constructor
  · simp only [CharacterUtils.calculateMaxHP, floor_div_two_eq]
  · exact le_max_left 1 _

/-- Witness for C6: a d10 class at level 3 with Constitution modifier −2. -/
theorem calculateMaxHP_spec_w :
    (1 : Int) ≤ 3 ∧
    (CharacterUtils.calculateMaxHP 10 3 (-2)
        = max 1 ((10 + (-2)) + (3 - 1) * (⌊((10 : Int) : ℚ) / 2⌋ + 1 + (-2))) ∧
      1 ≤ CharacterUtils.calculateMaxHP 10 3 (-2)) :=
  ⟨by decide, calculateMaxHP_spec 10 3 (-2) (by decide)⟩

/-- Claim C7: for every level in [1, 20], `getProficiencyBonus level` equals
`⌈level / 4⌉ + 1`, which matches the standard progression table (+2 at levels
1–4, +3 at 5–8, +4 at 9–12, +5 at 13–16, +6 at 17–20). -/
theorem getProficiencyBonus_spec (level : Int) (h1 : 1 ≤ level) (h2 : level ≤ 20) :
    CharacterUtils.getProficiencyBonus level = ⌈(level : ℚ) / 4⌉ + 1 ∧
    CharacterUtils.getProficiencyBonus level =
      (if level ≤ 4 then 2 else if level ≤ 8 then 3 else if level ≤ 12 then 4
       else if level ≤ 16 then 5 else 6) := by
  constructor
  · simp only [CharacterUtils.getProficiencyBonus, ceil_div_four_eq]
  · interval_cases level <;> decide

/-- Witness for C7: level 5 yields proficiency bonus +3. -/
theorem getProficiencyBonus_spec_w :
    (1 : Int) ≤ 5 ∧ (5 : Int) ≤ 20 ∧
    (CharacterUtils.getProficiencyBonus 5 = ⌈((5 : Int) : ℚ) / 4⌉ + 1 ∧
      CharacterUtils.getProficiencyBonus 5 =
        (if (5 : Int) ≤ 4 then 2 else if (5 : Int) ≤ 8 then 3
         else if (5 : Int) ≤ 12 then 4 else if (5 : Int) ≤ 16 then 5 else 6)) :=
  ⟨by decide, by decide, getProficiencyBonus_spec 5 (by decide) (by decide)⟩

/-- Claim C8: for every integer score, `getAbilityModifier score` equals
`⌊(score - 10) / 2⌋` with floor toward negative infinity (characterized by
`2 * m ≤ score - 10 < 2 * m + 2`), and in particular scores 8 and 9 yield −1,
10 yields 0, 15 yields 2, and 20 yields 5. -/
theorem getAbilityModifier_spec (score : Int) :
    CharacterUtils.getAbilityModifier score = ⌊((score : ℚ) - 10) / 2⌋ ∧
    2 * CharacterUtils.getAbilityModifier score ≤ score - 10 ∧
    score - 10 < 2 * CharacterUtils.getAbilityModifier score + 2 ∧
    CharacterUtils.getAbilityModifier 8 = -1 ∧
    CharacterUtils.getAbilityModifier 9 = -1 ∧
    CharacterUtils.getAbilityModifier 10 = 0 ∧
    CharacterUtils.getAbilityModifier 15 = 2 ∧
    CharacterUtils.getAbilityModifier 20 = 5 := by
  refine ⟨?_, ?_, ?_, by decide, by decide, by decide, by decide, by decide⟩
  · rw [show (((score : ℚ) - 10) / 2) = (((score - 10 : Int) : ℚ) / 2) by push_cast; ring]
    rw [floor_div_two_eq]
    rfl
  · simp only [CharacterUtils.getAbilityModifier]
    omega
  · simp only [CharacterUtils.getAbilityModifier]
    omega

end DndAi

namespace DndAi

/-- Counterexample for C9: with all six abilities at 15 the build costs 54
points (over budget), yet `canIncreaseScore 7` returns true because the
marginal cost of raising a score from 7 to 8 is 0, while the claimed condition
(total cost plus marginal cost stays within 27) is false. -/
theorem canIncreaseScore_overBudget_cex :
    PointBuy.canIncreaseScore 7 allFifteens = true ∧
    ¬(PointBuy.calculateTotalPointsUsed allFifteens
        + (PointBuy.calculateScoreCost (7 + 1) - PointBuy.calculateScoreCost 7) ≤ 27) := by
  decide

/-- Claim C9 (amended): for every current score and every six-attribute score
set whose total point cost is within the 27-point budget, `canIncreaseScore`
returns true exactly when the current score is below 15 and the one-step
marginal cost does not push the total cost over 27. -/
theorem canIncreaseScore_spec (cur : Int) (stats : AbilityScores)
    (hb : PointBuy.calculateTotalPointsUsed stats ≤ 27) :
    PointBuy.canIncreaseScore cur stats = true ↔
      (cur < 15 ∧ PointBuy.calculateTotalPointsUsed stats
        + (PointBuy.calculateScoreCost (cur + 1) - PointBuy.calculateScoreCost cur) ≤ 27) := by
  simp only [PointBuy.canIncreaseScore, PointBuy.getRemainingPoints,
    PointBuy.MAX_SCORE, PointBuy.TOTAL_POINTS]
  split_ifs with hge
  · simp only [Bool.false_eq_true, false_iff]
    omega
  · simp only [decide_eq_true_eq]
    omega

/-- Witness for C9: raising a 14 to 15 inside the all-8 build. -/
theorem canIncreaseScore_spec_w :
    PointBuy.calculateTotalPointsUsed allEights ≤ 27 ∧
    (PointBuy.canIncreaseScore 14 allEights = true ↔
      ((14 : Int) < 15 ∧ PointBuy.calculateTotalPointsUsed allEights
        + (PointBuy.calculateScoreCost (14 + 1) - PointBuy.calculateScoreCost 14) ≤ 27)) :=
  ⟨by decide, canIncreaseScore_spec 14 allEights (by decide)⟩

/-- Claim C4: for every d20 roll request in which exactly one of the advantage
or disadvantage flags is set, the engine consumes exactly two draws from the
random source, the result sequence is the single kept value (the maximum of
the two faces under advantage, the minimum under disadvantage), and the total
is that kept value plus the modifier. -/
theorem roll_advantage_spec (opts : Dice.RollOptions) (rand : Nat → Nat)
    (id : String) (h : opts.advantage ≠ opts.disadvantage) :
    (Dice.DiceRoller.roll Dice.DiceType.d20 opts rand id).2 = 2 ∧
    (Dice.DiceRoller.roll Dice.DiceType.d20 opts rand id).1.result
      = [if opts.advantage then max ((rand 0 : Int) + 1) ((rand 1 : Int) + 1)
         else min ((rand 0 : Int) + 1) ((rand 1 : Int) + 1)] ∧
    (Dice.DiceRoller.roll Dice.DiceType.d20 opts rand id).1.result.length = 1 ∧
    (Dice.DiceRoller.roll Dice.DiceType.d20 opts rand id).1.total
      = (if opts.advantage then max ((rand 0 : Int) + 1) ((rand 1 : Int) + 1)
         else min ((rand 0 : Int) + 1) ((rand 1 : Int) + 1)) + opts.modifier := by
  cases hA : opts.advantage <;> cases hD : opts.disadvantage <;>
    simp_all [Dice.DiceRoller.roll]

/-- Witness for C4: an advantage-only d20 roll over a stream whose first two
faces are 5 and 18. -/
theorem roll_advantage_spec_w :
    advOpts.advantage ≠ advOpts.disadvantage ∧
    ((Dice.DiceRoller.roll Dice.DiceType.d20 advOpts c4rand "r").2 = 2 ∧
     (Dice.DiceRoller.roll Dice.DiceType.d20 advOpts c4rand "r").1.result
       = [if advOpts.advantage
          then max ((c4rand 0 : Int) + 1) ((c4rand 1 : Int) + 1)
          else min ((c4rand 0 : Int) + 1) ((c4rand 1 : Int) + 1)] ∧
     (Dice.DiceRoller.roll Dice.DiceType.d20 advOpts c4rand "r").1.result.length = 1 ∧
     (Dice.DiceRoller.roll Dice.DiceType.d20 advOpts c4rand "r").1.total
       = (if advOpts.advantage
          then max ((c4rand 0 : Int) + 1) ((c4rand 1 : Int) + 1)
          else min ((c4rand 0 : Int) + 1) ((c4rand 1 : Int) + 1)) + advOpts.modifier) :=
  ⟨by decide, roll_advantage_spec advOpts c4rand "r" (by decide)⟩

/-- Counterexample for C5: with both flags set on a d20 roll the engine does
not perform a plain roll.  Over a stream with first face 1 and second face 20
it keeps [20] (the maximum of two draws) and consumes two draws, whereas a
plain roll of `count = 1` dice would return [1] after one draw. -/
theorem roll_bothFlags_cex :
    (Dice.DiceRoller.roll Dice.DiceType.d20 bothFlagOpts c5rand "r").1.result = [20] ∧
    (List.range bothFlagOpts.count).map (fun i => ((c5rand i : Int) + 1)) = [1] ∧
    (Dice.DiceRoller.roll Dice.DiceType.d20 bothFlagOpts c5rand "r").1.result
      ≠ (List.range bothFlagOpts.count).map (fun i => ((c5rand i : Int) + 1)) ∧
    (Dice.DiceRoller.roll Dice.DiceType.d20 bothFlagOpts c5rand "r").2
      ≠ bothFlagOpts.count := by
  decide

/-- Claim C5 (amended): for every d20 roll request that sets both the
advantage and disadvantage flags, the engine enters the
advantage/disadvantage branch and advantage takes precedence: exactly two
draws are consumed and the result is the single maximum of the two faces,
with the total being that value plus the modifier — not a plain roll. -/
theorem roll_bothFlags_spec (opts : Dice.RollOptions) (rand : Nat → Nat)
    (id : String) (h1 : opts.advantage = true) (h2 : opts.disadvantage = true) :
    (Dice.DiceRoller.roll Dice.DiceType.d20 opts rand id).2 = 2 ∧
    (Dice.DiceRoller.roll Dice.DiceType.d20 opts rand id).1.result
      = [max ((rand 0 : Int) + 1) ((rand 1 : Int) + 1)] ∧
    (Dice.DiceRoller.roll Dice.DiceType.d20 opts rand id).1.total
      = max ((rand 0 : Int) + 1) ((rand 1 : Int) + 1) + opts.modifier := by
  simp_all [Dice.DiceRoller.roll]

/-- Witness for C5: both flags set over a stream with faces 1 and 20. -/
theorem roll_bothFlags_spec_w :
    bothFlagOpts.advantage = true ∧ bothFlagOpts.disadvantage = true ∧
    ((Dice.DiceRoller.roll Dice.DiceType.d20 bothFlagOpts c5rand "r").2 = 2 ∧
     (Dice.DiceRoller.roll Dice.DiceType.d20 bothFlagOpts c5rand "r").1.result
       = [max ((c5rand 0 : Int) + 1) ((c5rand 1 : Int) + 1)] ∧
     (Dice.DiceRoller.roll Dice.DiceType.d20 bothFlagOpts c5rand "r").1.total
       = max ((c5rand 0 : Int) + 1) ((c5rand 1 : Int) + 1) + bothFlagOpts.modifier) :=
  ⟨by decide, by decide, roll_bothFlags_spec bothFlagOpts c5rand "r" (by decide) (by decide)⟩

/-- Claim C3: the two `validatePointBuyStats` implementations disagree on the
in-range record 15/15/15/9/8/8.  The point-buy module prices it at 28 points
and rejects it, while the character-utils copy (which the character-creation
API route calls) prices it at 25 points — because its formula charges only 8
points for a score of 15 instead of the documented 9 — and accepts it. -/
theorem validatePointBuy_disagreement :
    (∀ v ∈ c3stats.values, 8 ≤ v ∧ v ≤ 15) ∧
    PointBuy.calculateTotalPointsUsed c3stats = 28 ∧
    CharacterUtils.cuPointBuyCost c3stats = 25 ∧
    (PointBuy.validatePointBuyStats c3stats).valid = false ∧
    (CharacterUtils.validatePointBuyStats c3stats).valid = true := by
  decide

end DndAi

namespace DndAi

/-- The minimum-bound message with its interpolated constant rendered. -/
lemma minMsg_eq :
    "All ability scores must be at least " ++ toString (8 : Int)
      = "All ability scores must be at least 8" := rfl

/-- The maximum-bound message with its interpolated constant rendered. -/
lemma maxMsg_eq :
    "All ability scores must be at most " ++ toString (15 : Int)
      = "All ability scores must be at most 15" := rfl

/-- The budget message prefix with its interpolated constant rendered. -/
lemma budgetMsg_prefix_eq :
    "Point-buy total exceeds " ++ toString (27 : Int) ++ " points (used "
      = "Point-buy total exceeds 27 points (used " := rfl

set_option maxHeartbeats 1000000 in
/-- Claim C2: for every six-attribute record, the point-buy
`validatePointBuyStats` returns (without throwing — it is a pure function) a
structured result whose `pointsUsed` is the summed cost and whose
`pointsRemaining` is 27 minus `pointsUsed`, and which is invalid with a
minimum-bound message when any score is below 8, invalid with a maximum-bound
message when all scores are at least 8 but any exceeds 15, invalid with a
budget message when the scores are in range but cost more than 27, and valid
otherwise. -/
theorem validatePointBuyStats_spec (stats : AbilityScores) :
    (PointBuy.validatePointBuyStats stats).pointsUsed
        = PointBuy.calculateTotalPointsUsed stats ∧
    (PointBuy.validatePointBuyStats stats).pointsRemaining
        = 27 - (PointBuy.validatePointBuyStats stats).pointsUsed ∧
    ((stats.strength < 8 ∨ stats.dexterity < 8 ∨ stats.constitution < 8 ∨
      stats.intelligence < 8 ∨ stats.wisdom < 8 ∨ stats.charisma < 8) →
      (PointBuy.validatePointBuyStats stats).valid = false ∧
      (PointBuy.validatePointBuyStats stats).error
        = some ("All ability scores must be at least 8")) ∧
    ((8 ≤ stats.strength ∧ 8 ≤ stats.dexterity ∧ 8 ≤ stats.constitution ∧
      8 ≤ stats.intelligence ∧ 8 ≤ stats.wisdom ∧ 8 ≤ stats.charisma) →
      (15 < stats.strength ∨ 15 < stats.dexterity ∨ 15 < stats.constitution ∨
       15 < stats.intelligence ∨ 15 < stats.wisdom ∨ 15 < stats.charisma) →
      (PointBuy.validatePointBuyStats stats).valid = false ∧
      (PointBuy.validatePointBuyStats stats).error
        = some ("All ability scores must be at most 15")) ∧
    ((8 ≤ stats.strength ∧ stats.strength ≤ 15 ∧ 8 ≤ stats.dexterity ∧
      stats.dexterity ≤ 15 ∧ 8 ≤ stats.constitution ∧ stats.constitution ≤ 15 ∧
      8 ≤ stats.intelligence ∧ stats.intelligence ≤ 15 ∧ 8 ≤ stats.wisdom ∧
      stats.wisdom ≤ 15 ∧ 8 ≤ stats.charisma ∧ stats.charisma ≤ 15) →
      27 < PointBuy.calculateTotalPointsUsed stats →
      (PointBuy.validatePointBuyStats stats).valid = false ∧
      (PointBuy.validatePointBuyStats stats).error
        = some ("Point-buy total exceeds 27 points (used "
            ++ toString (PointBuy.calculateTotalPointsUsed stats) ++ ")")) ∧
    ((8 ≤ stats.strength ∧ stats.strength ≤ 15 ∧ 8 ≤ stats.dexterity ∧
      stats.dexterity ≤ 15 ∧ 8 ≤ stats.constitution ∧ stats.constitution ≤ 15 ∧
      8 ≤ stats.intelligence ∧ stats.intelligence ≤ 15 ∧ 8 ≤ stats.wisdom ∧
      stats.wisdom ≤ 15 ∧ 8 ≤ stats.charisma ∧ stats.charisma ≤ 15) →
      PointBuy.calculateTotalPointsUsed stats ≤ 27 →
      (PointBuy.validatePointBuyStats stats).valid = true ∧
      (PointBuy.validatePointBuyStats stats).error = none) := by
  obtain ⟨a, b, c, d, e, f⟩ := stats
  simp only [PointBuy.validatePointBuyStats, PointBuy.calculateTotalPointsUsed,
    AbilityScores.values, listMax, listMin, List.foldl, PointBuy.MIN_SCORE,
    PointBuy.MAX_SCORE, PointBuy.TOTAL_POINTS]
  split_ifs with h1 h2 h3
  · refine ⟨rfl, rfl, fun _ => ⟨rfl, by simp only [minMsg_eq]⟩, ?_, ?_, ?_⟩
    · intro hall _
      exfalso
      omega
    · intro hall _
      exfalso
      omega
    · intro hall _
      exfalso
      omega
  · refine ⟨rfl, rfl, ?_, fun _ _ => ⟨rfl, by simp only [maxMsg_eq]⟩, ?_, ?_⟩
    · intro hx
      exfalso
      omega
    · intro hall _
      exfalso
      omega
    · intro hall _
      exfalso
      omega
  · refine ⟨rfl, rfl, ?_, ?_, fun _ _ => ⟨rfl, by simp only [budgetMsg_prefix_eq]⟩, ?_⟩
    · intro hx
      exfalso
      omega
    · intro hall hx
      exfalso
      omega
    · intro _ hle
      exfalso
      omega
  · refine ⟨rfl, rfl, ?_, ?_, ?_, fun _ _ => ⟨rfl, rfl⟩⟩
    · intro hx
      exfalso
      omega
    · intro hall hx
      exfalso
      omega
    · intro _ hgt
      exfalso
      omega

/-- Witness for C2: the valid branch at the all-8 build. -/
theorem validatePointBuyStats_spec_w :
    (PointBuy.validatePointBuyStats allEights).valid = true ∧
    (PointBuy.validatePointBuyStats allEights).error = none :=
  (validatePointBuyStats_spec allEights).2.2.2.2.2 (by decide) (by decide)

end DndAi

namespace DndAi

/-- Counterexample for C10: the single-die d20 roll with count 1, modifier 3,
kept face 14 and total 17 renders as "d20+3: 14 = 17" — the count prefix is
omitted when count is 1 — not as the claimed "1d20+3: 14 = 17". -/
theorem formatRoll_count_prefix_cex :
    Dice.DiceRoller.formatRoll fmtRoll1 = "d20+3: 14 = 17" ∧
    Dice.DiceRoller.formatRoll fmtRoll1 ≠ "1d20+3: 14 = 17" := by
  decide

/-- Claim C10 (amended): `formatRoll` prefixes the die count only when it
exceeds 1 (so the single-die d20 example renders "d20+3: 14 = 17"), renders a
multi-die face list in brackets as in "2d6+2: [4, 6] = 12", and appends
" (Advantage)" whenever the advantage flag is set and " (Disadvantage)"
whenever the disadvantage flag is set and the advantage flag is not. -/
theorem formatRoll_spec :
    Dice.DiceRoller.formatRoll fmtRoll1 = "d20+3: 14 = 17" ∧
    Dice.DiceRoller.formatRoll fmtRoll2 = "2d6+2: [4, 6] = 12" ∧
    Dice.DiceRoller.formatRoll fmtRollAdv = "d20+3: 14 = 17 (Advantage)" ∧
    Dice.DiceRoller.formatRoll fmtRollDis = "d20+3: 14 = 17 (Disadvantage)" ∧
    (∀ r : Dice.DiceRoll, r.advantage = true →
      ∃ s, Dice.DiceRoller.formatRoll r = s ++ " (Advantage)") ∧
    (∀ r : Dice.DiceRoll, r.advantage = false → r.disadvantage = true →
      ∃ s, Dice.DiceRoller.formatRoll r = s ++ " (Disadvantage)") := by
  refine ⟨by decide, by decide, by decide, by decide, ?_, ?_⟩
  · intro r h
    simp only [Dice.DiceRoller.formatRoll, h, if_true]
    exact ⟨_, rfl⟩
  · intro r hA hD
    simp only [Dice.DiceRoller.formatRoll, hA, hD, if_true, if_false,
      Bool.false_eq_true, Bool.true_eq_false]
    exact ⟨_, rfl⟩

/-- Witness for C10: the advantage-flag conjunct applied to the concrete
advantage roll. -/
theorem formatRoll_spec_w :
    fmtRollAdv.advantage = true ∧
    (∃ s, Dice.DiceRoller.formatRoll fmtRollAdv = s ++ " (Advantage)") :=
  ⟨by decide, formatRoll_spec.2.2.2.2.1 fmtRollAdv (by decide)⟩

end DndAi
